import Mathlib

/-!
# Verification of the starlette dispatch core

A shallow embedding of `starlette/endpoints.py` and `starlette/applications.py`
together with theorems about the behaviour of the endpoint dispatchers and the
application facade.

Conventions of the embedding:

* Python exceptions become explicit `Except`/fault values.
* The inbound channel of a websocket session becomes a finite list of message
  records; pulling a message from an exhausted channel surfaces a fault
  (`WSFault.channelExhausted`), matching the fact that `websocket.receive()`
  can only fail once the underlying connection is gone.
* The overridable callbacks (`on_connect`, `on_receive`, `on_disconnect`) are
  user code, so they are parameters of the model; each may either return
  normally or raise a fault.  Their invocations are recorded in an event
  trace, together with the `websocket.close` calls issued by `decode`.
* `json.loads(message["bytes"].decode("utf-8"))` is an external standard
  library call; it is a parameter `jsonLoads` of the model, returning either a
  decoded structured value of an abstract type `J` or a fault.
-/

/-- A websocket message record, mirroring the ASGI message dict: a `"type"`
key, optional `"text"`, `"bytes"` and `"code"` keys.  Binary payloads are
modelled as lists of byte values. -/
structure WSMessage where
  type : String
  text : Option String := none
  bytes : Option (List Nat) := none
  code : Option Nat := none
deriving Repr, DecidableEq

/-- A fault (Python exception) surfacing from the session machinery. -/
inductive WSFault where
  /-- A `RuntimeError(msg)` raised by `WebSocketEndpoint.decode`. -/
  | runtimeError (msg : String)
  /-- a failed `assert` statement. -/
  | assertionError (msg : String)
  /-- A `KeyError` from indexing a missing message key. -/
  | keyError
  /-- a fault raised by `json.loads` / `.decode("utf-8")`. -/
  | valueError
  /-- the inbound channel terminated abnormally (no further message). -/
  | channelExhausted
  /-- a fault raised by user-supplied callback code. -/
  | userFault (tag : Nat)
deriving Repr, DecidableEq

/-- The data value produced by `WebSocketEndpoint.decode`: raw text, raw
bytes, or a structured value of type `J` produced by the external JSON
decoder. -/
inductive WSData (J : Type) where
  | text (s : String)
  | bytes (b : List Nat)
  | json (v : J)
deriving Repr, DecidableEq

/-- An observable event of one session: a callback invocation or a
`websocket.close` call issued by the dispatcher. -/
inductive WSEvent (J : Type) where
  | onConnect
  | onReceive (d : WSData J)
  | onDisconnect (code : Option Nat)
  | close (code : Nat)
deriving Repr, DecidableEq

/-- Returns `true` exactly on `onDisconnect` events. -/
def WSEvent.isOnDisconnect {J : Type} : WSEvent J → Bool
  | .onDisconnect _ => true
  | _ => false

/-- Returns `true` exactly on `onReceive` events. -/
def WSEvent.isOnReceive {J : Type} : WSEvent J → Bool
  | .onReceive _ => true
  | _ => false

/-- The user-overridable callbacks of a `WebSocketEndpoint` subclass.  Each
callback either returns normally or raises a fault; `on_receive` sees the
decoded data and `on_disconnect` the close code. -/
structure WSCallbacks (J : Type) where
  on_connect : Except WSFault Unit
  on_receive : WSData J → Except WSFault Unit
  on_disconnect : Option Nat → Except WSFault Unit

/-- The default callback bodies: `on_connect` accepts the session,
`on_receive` and `on_disconnect` are no-ops; none of them raises. -/
def WSCallbacks.default (J : Type) : WSCallbacks J where
  on_connect := .ok ()
  on_receive := fun _ => .ok ()
  on_disconnect := fun _ => .ok ()

/-- Embedding of `WebSocketEndpoint.__init__`: `assert scope["type"] == "websocket"`.
The declared `encoding` class attribute is not consulted here. -/
def WebSocketEndpoint.init (scope_type : String) : Except WSFault Unit :=
  if scope_type = "websocket" then .ok ()
  else .error (.assertionError "scope type is not websocket")

/-- The set of `encoding` values the decoder recognises:
`None`, `"text"`, `"bytes"`, `"json"`. -/
def recognizedEncoding : Option String → Bool
  | none => true
  | some s => s = "text" || s = "bytes" || s = "json"

/-- Embedding of `WebSocketEndpoint.decode(websocket, message)`.  Returns the list of
`websocket.close` events it issues together with either the decoded data or
the fault it raises.  `jsonLoads` stands for the external
`json.loads(message["bytes"].decode("utf-8"))` call. -/
def WebSocketEndpoint.decode {J : Type} (jsonLoads : List Nat → Except WSFault J)
    (encoding : Option String) (message : WSMessage) :
    List (WSEvent J) × Except WSFault (WSData J) :=
  if encoding = some "text" then
    match message.text with
    | none =>
        ([.close 1003],
         .error (.runtimeError "Expected text websocket messages, but got bytes"))
    | some t => ([], .ok (.text t))
  else if encoding = some "bytes" then
    match message.bytes with
    | none =>
        ([.close 1003],
         .error (.runtimeError "Expected bytes websocket messages, but got text"))
    | some b => ([], .ok (.bytes b))
  else if encoding = some "json" then
    match message.bytes with
    | none =>
        ([.close 1003],
         .error (.runtimeError
           "Expected JSON to be transferred as bytes websocket messages, but got text"))
    | some b =>
        match jsonLoads b with
        | .error f => ([], .error f)
        | .ok v => ([], .ok (.json v))
  else if encoding = none then
    -- `return message["text"] if "text" in message else message["bytes"]`
    match message.text with
    | some t => ([], .ok (.text t))
    | none =>
        match message.bytes with
        | some b => ([], .ok (.bytes b))
        | none => ([], .error .keyError)
  else
    -- the trailing assert: self.encoding must be None here, else AssertionError
    ([], .error (.assertionError "Unsupported encoding attribute"))

/-- How the `while True:` body of `WebSocketEndpoint.__call__` exited. -/
inductive LoopExit where
  /-- Normal `return` after a `websocket.disconnect` message. -/
  | normal
  /-- a fault propagating out of the loop. -/
  | fault (f : WSFault)
deriving Repr, DecidableEq

/-- The `try:` block of `WebSocketEndpoint.__call__`: repeatedly pull the
next message, dispatch on its `"type"`, thread the `close_code` local.
Returns the event trace of the loop, the final value of `close_code`, and
how the loop exited. -/
def WebSocketEndpoint.loop {J : Type} (jsonLoads : List Nat → Except WSFault J)
    (encoding : Option String) (cb : WSCallbacks J) (closeCode : Option Nat) :
    List WSMessage → List (WSEvent J) × Option Nat × LoopExit
  | [] => ([], closeCode, .fault .channelExhausted)
  | message :: rest =>
    if message.type = "websocket.receive" then
      match WebSocketEndpoint.decode jsonLoads encoding message with
      | (evs, .error f) => (evs, closeCode, .fault f)
      | (evs, .ok data) =>
        match cb.on_receive data with
        | .error f => (evs ++ [.onReceive data], closeCode, .fault f)
        | .ok _ =>
          let r := WebSocketEndpoint.loop jsonLoads encoding cb closeCode rest
          (evs ++ [.onReceive data] ++ r.1, r.2)
    else if message.type = "websocket.disconnect" then
      -- `close_code = message.get("code", 1000); return`
      ([], some (message.code.getD 1000), .normal)
    else
      WebSocketEndpoint.loop jsonLoads encoding cb closeCode rest

/-- The overall outcome of `WebSocketEndpoint.__call__`. -/
inductive WSOutcome where
  /-- the coroutine returned normally. -/
  | completed
  /-- a fault propagated to the caller. -/
  | fault (f : WSFault)
deriving Repr, DecidableEq

/-- Embedding of `WebSocketEndpoint.__call__(receive, send)`: invoke `on_connect`, then
run the receive loop inside `try: ... finally: await self.on_disconnect(...)`.
Returns the full event trace of the session and its outcome.  A fault raised
by `on_connect` happens before the `try:` block, so `on_disconnect` is not
reached; a fault raised by `on_disconnect` itself replaces the in-flight
outcome, as a fault in a `finally:` block does. -/
def WebSocketEndpoint.call {J : Type} (jsonLoads : List Nat → Except WSFault J)
    (encoding : Option String) (cb : WSCallbacks J) (inbound : List WSMessage) :
    List (WSEvent J) × WSOutcome :=
  match cb.on_connect with
  | .error f => ([.onConnect], .fault f)
  | .ok _ =>
    match WebSocketEndpoint.loop jsonLoads encoding cb none inbound with
    | (evs, closeCode, ex) =>
      match cb.on_disconnect closeCode with
      | .error f => (.onConnect :: evs ++ [.onDisconnect closeCode], .fault f)
      | .ok _ =>
        match ex with
        | .normal => (.onConnect :: evs ++ [.onDisconnect closeCode], .completed)
        | .fault f => (.onConnect :: evs ++ [.onDisconnect closeCode], .fault f)

/-- A trivial JSON decoder usable to instantiate the model at `J := Unit`
in concrete runs whose messages never take the JSON branch. -/
def noJson : List Nat → Except WSFault Unit := fun _ => .error .valueError


/-! ## The HTTP endpoint dispatcher (`HTTPEndpoint`) -/

/-- A value stored in a Connection Scope entry. -/
inductive ScopeVal where
  /-- a string value, e.g. the `"type"` entry. -/
  | str (s : String)
  /-- the application back-reference stored under `"app"`. -/
  | appRef
deriving Repr, DecidableEq

/-- The Connection Scope, modelled as the underlying association list of the
Python dict (most recent binding first). -/
abbrev ScopeMap : Type := List (String × ScopeVal)

/-- Reading `scope[k]` / `k in scope`: the most recent binding of `k`. -/
def scopeLookup (scope : ScopeMap) (k : String) : Option ScopeVal :=
  match scope with
  | [] => none
  | (k₁, v) :: rest => if k₁ = k then some v else scopeLookup rest k

/-- Dict assignment `scope[k] = v`. -/
def scopeSet (scope : ScopeMap) (k : String) (v : ScopeVal) : ScopeMap :=
  (k, v) :: scope

/-- The assignment `handler_name = "get" if request.method == "HEAD" else request.method.lower()`
from `HTTPEndpoint.dispatch`. -/
def handler_name (method : String) : String :=
  if method = "HEAD" then "get" else method.toLower

/-- Embedding of `HTTPEndpoint.dispatch(request, **kwargs)`.  `getattr` maps an attribute
name to the handler bound under that name on the endpoint instance, if any
(the model of Python's `getattr(self, handler_name, default)`); the
`asyncio.iscoroutinefunction` branch disappears because both arms invoke
`handler(request, **kwargs)`. -/
def HTTPEndpoint.dispatch {Req Kw Resp : Type}
    (getattr : String → Option (Req → Kw → Resp))
    (method_not_allowed : Req → Kw → Resp)
    (method : String) (request : Req) (kwargs : Kw) : Resp :=
  match getattr (handler_name method) with
  | some handler => handler request kwargs
  | none => method_not_allowed request kwargs

/-- What `HTTPEndpoint.method_not_allowed` does: either raise a structured
`HTTPException`, or return a `PlainTextResponse`. -/
inductive MNAResult where
  | raisedHTTPException (status_code : Nat)
  | plainTextResponse (content : String) (status_code : Nat)
deriving Repr, DecidableEq

/-- Embedding of `HTTPEndpoint.method_not_allowed(request, **kwargs)`: raise
`HTTPException(status_code=405)` when `"app" in self.scope`, otherwise return
`PlainTextResponse("Method Not Allowed", status_code=405)`. -/
def HTTPEndpoint.method_not_allowed (scope : ScopeMap) : MNAResult :=
  if (scopeLookup scope "app").isSome then .raisedHTTPException 405
  else .plainTextResponse "Method Not Allowed" 405

/-! ## The application facade (`Starlette`) -/

/-- The effective connection-handler chain seen from the gateway: the
exception-translation wrapper around some composition of middleware around
the router.  Middleware instances are identified by a tag. -/
inductive Chain where
  /-- The `self.router` leaf. -/
  | router
  /-- A `middleware_class(inner, **kwargs)` layer for the middleware tagged `m`. -/
  | middleware (m : Nat) (inner : Chain)
deriving Repr, DecidableEq

/-- The middleware tags present in a chain, outermost first. -/
def Chain.middlewares : Chain → List Nat
  | .router => []
  | .middleware m inner => m :: inner.middlewares

/-- The mutable attributes of a `Starlette` instance that middleware
registration touches: `self.app` and `self.exception_middleware.app`. -/
structure StarletteState where
  app : Chain
  exception_middleware_app : Chain
deriving Repr, DecidableEq

/-- Embedding of `Starlette.__init__`: `self.app = self.router;
self.exception_middleware = ExceptionMiddleware(self.router, debug=debug)`. -/
def Starlette.init : StarletteState where
  app := .router
  exception_middleware_app := .router

/-- Embedding of `Starlette.add_middleware(middleware_class, **kwargs)`:
`self.exception_middleware.app = middleware_class(self.app, **kwargs)`.
Note that `self.app` itself is not reassigned. -/
def Starlette.add_middleware (s : StarletteState) (m : Nat) : StarletteState :=
  { s with exception_middleware_app := .middleware m s.app }

/-- The inner target of the exception-translation wrapper after registering
the middlewares `ms` in order on a fresh facade. -/
def Starlette.chainAfter (ms : List Nat) : StarletteState :=
  ms.foldl Starlette.add_middleware Starlette.init

/-- The scope effect of `Starlette.__call__(scope)`: a `"lifespan"` scope is
handed to the lifespan collaborator untouched; any other scope gets
`scope["app"] = self` before delegation to the exception middleware. -/
def Starlette.call_scope (scope : ScopeMap) : ScopeMap :=
  if scopeLookup scope "type" = some (.str "lifespan") then scope
  else scopeSet scope "app" .appRef

/-- The shapes a route argument can have at registration time:
Python's `inspect.isclass(route)` branch made explicit. -/
inductive RouteArg (H : Type) where
  /-- a plain routine (function handler). -/
  | routine (f : H)
  /-- a class-shaped handler (e.g. an `HTTPEndpoint` subclass). -/
  | cls (c : H)
deriving Repr, DecidableEq

/-- What `Starlette.add_route` stores in the routing table: the route value,
whether it was wrapped by `request_response`, and the methods list passed to
`Path`. -/
structure PathEntry (H : Type) where
  route : H
  wrappedByRequestResponse : Bool
  methods : Option (List String)
deriving Repr, DecidableEq

/-- Embedding of `Starlette.add_route(path, route, methods)`: a non-class route is wrapped
by `request_response` and, when `methods is None`, methods defaults to
`["GET"]`; a class route is stored as given with the methods as given. -/
def Starlette.add_route {H : Type} (route : RouteArg H)
    (methods : Option (List String)) : PathEntry H :=
  match route with
  | .routine f =>
      { route := f
        wrappedByRequestResponse := true
        methods := some (methods.getD ["GET"]) }
  | .cls c =>
      { route := c
        wrappedByRequestResponse := false
        methods := methods }

/-- Modelled from the spec: the routing collaborator's per-route method check
is not part of the two source files (it lives in `starlette/routing.py`);
§8 of the spec fixes its observable: "registering a route without an explicit
method set restricts it to `{GET}` only; a request with method `POST` against
that route reaches method-not-allowed".  A request reaches the route's
handler exactly when its method is in the route's method set. -/
def routeAllowsMethod (methods : List String) (m : String) : Bool :=
  methods.contains m

/-! ## Theorems: the HTTP endpoint dispatcher -/

/-- Claim C4: for every request-kind endpoint, request method `m` and
path-parameter mapping, `dispatch` invokes the handler attribute named
`m.lower()` (or `"get"` when `m = "HEAD"`) with the request and the
path parameters exactly when that attribute exists on the endpoint
instance; otherwise it invokes the method-not-allowed fallback. -/
theorem HTTPEndpoint.dispatch_resolves_handler {Req Kw Resp : Type}
    (getattr : String → Option (Req → Kw → Resp))
    (mna : Req → Kw → Resp) (m : String) (request : Req) (kwargs : Kw) :
    handler_name m = (if m = "HEAD" then "get" else m.toLower) ∧
    (∀ h, getattr (handler_name m) = some h →
      HTTPEndpoint.dispatch getattr mna m request kwargs = h request kwargs) ∧
    (getattr (handler_name m) = none →
      HTTPEndpoint.dispatch getattr mna m request kwargs = mna request kwargs) := by
  refine ⟨rfl, ?_, ?_⟩
  · intro h hh
    simp [HTTPEndpoint.dispatch, hh]
  · intro hh
    simp [HTTPEndpoint.dispatch, hh]

/-- An endpoint-instance attribute table with only a `get` handler, used to
exercise `HTTPEndpoint.dispatch_resolves_handler` concretely. -/
def getOnlyAttrs : String → Option (Unit → Unit → Nat) :=
  fun name => if name = "get" then some (fun _ _ => 7) else none

/-- Witness: `HTTPEndpoint.dispatch_resolves_handler` at concrete inputs: a `HEAD`
request reaches the `get` handler; on an endpoint with no handler attributes
at all, a `POST` request reaches the fallback. -/
theorem HTTPEndpoint.dispatch_resolves_handler_witness :
    HTTPEndpoint.dispatch getOnlyAttrs (fun _ _ => 405) "HEAD" () () = 7 ∧
    HTTPEndpoint.dispatch (fun _ => (none : Option (Unit → Unit → Nat)))
      (fun _ _ => 405) "POST" () () = 405 := by
  constructor
  · exact (HTTPEndpoint.dispatch_resolves_handler getOnlyAttrs
      (fun _ _ => 405) "HEAD" () ()).2.1 (fun _ _ => 7) (by rfl)
  · exact (HTTPEndpoint.dispatch_resolves_handler
      (fun _ => (none : Option (Unit → Unit → Nat)))
      (fun _ _ => 405) "POST" () ()).2.2 (by rfl)

/-- Claim C6: when `dispatch` falls through to `method_not_allowed`, an
`HTTPException` with status 405 is raised when the scope carries the `"app"`
back-reference, and otherwise a plain-text 405 response is returned. -/
theorem HTTPEndpoint.method_not_allowed_behavior (scope : ScopeMap) :
    ((scopeLookup scope "app").isSome = true →
      HTTPEndpoint.method_not_allowed scope = .raisedHTTPException 405) ∧
    ((scopeLookup scope "app").isSome = false →
      HTTPEndpoint.method_not_allowed scope =
        .plainTextResponse "Method Not Allowed" 405) := by
  constructor <;> intro h <;> simp [HTTPEndpoint.method_not_allowed, h]

/-- Witness: `HTTPEndpoint.method_not_allowed_behavior` at concrete scopes with and
without the `"app"` entry. -/
theorem HTTPEndpoint.method_not_allowed_behavior_witness :
    HTTPEndpoint.method_not_allowed [("app", ScopeVal.appRef)] =
      .raisedHTTPException 405 ∧
    HTTPEndpoint.method_not_allowed [("type", ScopeVal.str "http")] =
      .plainTextResponse "Method Not Allowed" 405 := by
  constructor
  · exact (HTTPEndpoint.method_not_allowed_behavior
      [("app", ScopeVal.appRef)]).1 (by decide)
  · exact (HTTPEndpoint.method_not_allowed_behavior
      [("type", ScopeVal.str "http")]).2 (by decide)

/-! ## Theorems: the application facade -/

/-- Claim C7, counterexample: registering middleware `1` then middleware `2`
does not produce the chain `M2 (M1 router)` under the exception wrapper; the
wrapper's inner target is `M2 router` and middleware `1` is gone from the
chain, so not all registered middlewares are present. -/
theorem Starlette.add_middleware_two_counterexample :
    (Starlette.chainAfter [1, 2]).exception_middleware_app ≠
      Chain.middleware 2 (Chain.middleware 1 Chain.router) ∧
    (Starlette.chainAfter [1, 2]).exception_middleware_app =
      Chain.middleware 2 Chain.router ∧
    (Starlette.chainAfter [1, 2]).exception_middleware_app.middlewares = [2] := by
  refine ⟨by decide, by decide, by decide⟩

/-- Invariant: `self.app` is never reassigned by `add_middleware`. -/
theorem Starlette.foldl_add_middleware_app (ms : List Nat) (s : StarletteState) :
    (ms.foldl Starlette.add_middleware s).app = s.app := by
  induction ms generalizing s with
  | nil => rfl
  | cons a rest ih => simpa [Starlette.add_middleware] using ih _

/-- Claim C7, amended: each `add_middleware` call rebinds the exception
wrapper's inner target to `middleware_class(self.app, **kwargs)`, but
`self.app` stays the router, so after registering middlewares
`ms ++ [m]` the effective chain is the exception wrapper around `m` wrapping
the router: only the last-registered middleware is present. -/
theorem Starlette.add_middleware_keeps_only_last (ms : List Nat) (m : Nat) :
    (Starlette.chainAfter (ms ++ [m])).app = .router ∧
    (Starlette.chainAfter (ms ++ [m])).exception_middleware_app =
      .middleware m .router ∧
    (Starlette.chainAfter (ms ++ [m])).exception_middleware_app.middlewares
      = [m] := by
  have happ : (ms.foldl Starlette.add_middleware Starlette.init).app = Chain.router :=
    Starlette.foldl_add_middleware_app ms Starlette.init
  have hfold : Starlette.chainAfter (ms ++ [m]) =
      Starlette.add_middleware (ms.foldl Starlette.add_middleware Starlette.init) m := by
    simp [Starlette.chainAfter, List.foldl_append]
  rw [hfold]
  refine ⟨?_, ?_, ?_⟩ <;>
    simp [Starlette.add_middleware, happ, Chain.middlewares]

/-- Claim C8, counterexample: the facade's `__call__` is not read-only on the
scope: on a non-lifespan scope it adds the `"app"` entry. -/
theorem Starlette.call_scope_mutates :
    scopeLookup [("type", ScopeVal.str "http")] "app" = none ∧
    scopeLookup (Starlette.call_scope [("type", ScopeVal.str "http")]) "app" =
      some ScopeVal.appRef ∧
    Starlette.call_scope [("type", ScopeVal.str "http")] ≠
      [("type", ScopeVal.str "http")] := by
  refine ⟨by decide, by decide, by decide⟩

/-- Claim C8, amended: the facade's `__call__` leaves a lifespan scope
entirely unchanged and, on any other scope, changes nothing but the `"app"`
entry (which it sets to the application back-reference). -/
theorem Starlette.call_scope_only_sets_app (scope : ScopeMap) :
    (scopeLookup scope "type" = some (.str "lifespan") →
      Starlette.call_scope scope = scope) ∧
    (∀ k, k ≠ "app" →
      scopeLookup (Starlette.call_scope scope) k = scopeLookup scope k) ∧
    (scopeLookup scope "type" ≠ some (.str "lifespan") →
      scopeLookup (Starlette.call_scope scope) "app" = some .appRef) := by
  refine ⟨?_, ?_, ?_⟩
  · intro h
    simp [Starlette.call_scope, h]
  · intro k hk
    by_cases h : scopeLookup scope "type" = some (.str "lifespan") <;>
      simp [Starlette.call_scope, h, scopeSet, scopeLookup, Ne.symm hk]
  · intro h
    simp [Starlette.call_scope, h, scopeSet, scopeLookup]

/-- Witness: `Starlette.call_scope_only_sets_app` at concrete scopes: a lifespan scope
is untouched, and the `"type"` entry of an http scope is preserved. -/
theorem Starlette.call_scope_only_sets_app_witness :
    Starlette.call_scope [("type", ScopeVal.str "lifespan")] =
      [("type", ScopeVal.str "lifespan")] ∧
    scopeLookup (Starlette.call_scope [("type", ScopeVal.str "http")]) "type" =
      scopeLookup [("type", ScopeVal.str "http")] "type" := by
  constructor
  · exact (Starlette.call_scope_only_sets_app
      [("type", ScopeVal.str "lifespan")]).1 (by decide)
  · exact (Starlette.call_scope_only_sets_app
      [("type", ScopeVal.str "http")]).2.1 "type" (by decide)

/-- Claim C9: registering a plain routine with no explicit method set wraps
it in `request_response` and defaults the methods to exactly `["GET"]`, so a
`POST` request against that route fails the method check and reaches
method-not-allowed, while a `GET` passes; registering a class-shaped handler
stores it unwrapped with the methods as given. -/
theorem Starlette.add_route_defaults {H : Type} (f c : H)
    (ms : Option (List String)) :
    Starlette.add_route (.routine f) none =
      { route := f, wrappedByRequestResponse := true, methods := some ["GET"] } ∧
    routeAllowsMethod ["GET"] "POST" = false ∧
    routeAllowsMethod ["GET"] "GET" = true ∧
    Starlette.add_route (.cls c) ms =
      { route := c, wrappedByRequestResponse := false, methods := ms } := by
  exact ⟨rfl, by decide, by decide, rfl⟩

/-! ## Theorems: websocket endpoint construction and configuration -/

/-- Claim C5, counterexample: declaring the unrecognized encoding `"xml"`
does not make construction fail.  `WebSocketEndpoint.__init__` only asserts
the scope type and never consults the `encoding` attribute, so the instance
is constructed without any fault being raised. -/
theorem WebSocketEndpoint.init_ignores_encoding :
    recognizedEncoding (some "xml") = false ∧
    WebSocketEndpoint.init "websocket" = .ok () := by
  exact ⟨by decide, rfl⟩

/-- Claim C5, amended: an unrecognized encoding is not a construction-time
fault; construction succeeds on a websocket scope, and the fatal
unsupported-configuration assertion fires in `decode`, i.e. when the first
receive-message is decoded — and it does so for every message. -/
theorem WebSocketEndpoint.unsupported_encoding_faults_in_decode {J : Type}
    (jsonLoads : List Nat → Except WSFault J) (encoding : Option String)
    (h : recognizedEncoding encoding = false) (m : WSMessage) :
    WebSocketEndpoint.init "websocket" = .ok () ∧
    WebSocketEndpoint.decode jsonLoads encoding m =
      ([], .error (.assertionError "Unsupported encoding attribute")) := by
  refine ⟨rfl, ?_⟩
  match encoding with
  | none => simp [recognizedEncoding] at h
  | some s =>
    simp only [recognizedEncoding, Bool.or_eq_false_iff, decide_eq_false_iff_not] at h
    obtain ⟨⟨h1, h2⟩, h3⟩ := h
    simp [WebSocketEndpoint.decode, h1, h2, h3]

/-- Witness: `WebSocketEndpoint.unsupported_encoding_faults_in_decode` at the concrete
encoding `"xml"` and a concrete text message. -/
theorem WebSocketEndpoint.unsupported_encoding_faults_in_decode_witness :
    WebSocketEndpoint.init "websocket" = .ok () ∧
    WebSocketEndpoint.decode noJson (some "xml")
      { type := "websocket.receive", text := some "hi" } =
      ([], .error (.assertionError "Unsupported encoding attribute")) :=
  WebSocketEndpoint.unsupported_encoding_faults_in_decode noJson (some "xml")
    (by decide) { type := "websocket.receive", text := some "hi" }

/-- Claim C10: when `on_connect` raises, the fault propagates before the
`try`/`finally` block is entered, so the receive loop never runs and
`on_disconnect` is not invoked at all: the whole trace is the single
`on_connect` invocation. -/
theorem WebSocketEndpoint.on_connect_fault_skips_disconnect {J : Type}
    (jsonLoads : List Nat → Except WSFault J) (encoding : Option String)
    (cb : WSCallbacks J) (inbound : List WSMessage) (f : WSFault)
    (h : cb.on_connect = .error f) :
    WebSocketEndpoint.call jsonLoads encoding cb inbound =
      ([.onConnect], .fault f) := by
  simp [WebSocketEndpoint.call, h]

/-- A callback bundle whose `on_connect` raises, for exercising
`WebSocketEndpoint.on_connect_fault_skips_disconnect` concretely. -/
def cbConnectFault : WSCallbacks Unit where
  on_connect := .error (.userFault 7)
  on_receive := fun _ => .ok ()
  on_disconnect := fun _ => .ok ()

/-- Witness: `WebSocketEndpoint.on_connect_fault_skips_disconnect` at a concrete
session whose inbound channel even carries a disconnect message. -/
theorem WebSocketEndpoint.on_connect_fault_skips_disconnect_witness :
    WebSocketEndpoint.call noJson none cbConnectFault
      [{ type := "websocket.disconnect", code := some 1000 }] =
      ([.onConnect], .fault (.userFault 7)) :=
  WebSocketEndpoint.on_connect_fault_skips_disconnect noJson none
    cbConnectFault [{ type := "websocket.disconnect", code := some 1000 }]
    (.userFault 7) rfl

/-! ## Lemmas about `decode` and the receive loop -/

/-- Lemma: `decode` either emits no event, or emits exactly the `close(1003)` call
and raises a `RuntimeError`. -/
theorem WebSocketEndpoint.decode_events_or {J : Type}
    (jl : List Nat → Except WSFault J) (e : Option String) (m : WSMessage) :
    (WebSocketEndpoint.decode jl e m).1 = [] ∨
    ((WebSocketEndpoint.decode jl e m).1 = [WSEvent.close 1003] ∧
      ∃ s, (WebSocketEndpoint.decode jl e m).2 =
        .error (.runtimeError s)) := by
  unfold WebSocketEndpoint.decode
  repeat' split
  all_goals simp

/-- A successful `decode` emits no `websocket.close` call. -/
theorem WebSocketEndpoint.decode_ok_no_events {J : Type}
    (jl : List Nat → Except WSFault J) (e : Option String) (m : WSMessage)
    (d : WSData J) (h : (WebSocketEndpoint.decode jl e m).2 = .ok d) :
    WebSocketEndpoint.decode jl e m = ([], .ok d) := by
  rcases WebSocketEndpoint.decode_events_or jl e m with h1 | ⟨h1, s, h2⟩
  · rcases hd : WebSocketEndpoint.decode jl e m with ⟨evs, res⟩
    rw [hd] at h1 h
    simp only at h1 h
    rw [h1, h]
  · rw [h] at h2
    cases h2

/-- Receive loop, empty channel: pulling from an exhausted inbound channel
surfaces a fault. -/
theorem WebSocketEndpoint.loop_nil {J : Type}
    (jl : List Nat → Except WSFault J) (e : Option String) (cb : WSCallbacks J)
    (c0 : Option Nat) :
    WebSocketEndpoint.loop jl e cb c0 [] = ([], c0, .fault .channelExhausted) :=
  rfl

/-- Receive loop, receive-message whose decode raises: the fault aborts the
loop; `on_receive` is not invoked and `close_code` keeps its value. -/
theorem WebSocketEndpoint.loop_recv_decode_fault {J : Type}
    (jl : List Nat → Except WSFault J) (e : Option String) (cb : WSCallbacks J)
    (c0 : Option Nat) (m : WSMessage) (rest : List WSMessage)
    (evs : List (WSEvent J)) (f : WSFault)
    (h1 : m.type = "websocket.receive")
    (hd : WebSocketEndpoint.decode jl e m = (evs, .error f)) :
    WebSocketEndpoint.loop jl e cb c0 (m :: rest) = (evs, c0, .fault f) := by
  simp [WebSocketEndpoint.loop, h1, hd]

/-- Receive loop, receive-message decoded to `data` whose `on_receive`
raises: the callback is invoked and its fault aborts the loop. -/
theorem WebSocketEndpoint.loop_recv_cb_fault {J : Type}
    (jl : List Nat → Except WSFault J) (e : Option String) (cb : WSCallbacks J)
    (c0 : Option Nat) (m : WSMessage) (rest : List WSMessage)
    (data : WSData J) (f : WSFault)
    (h1 : m.type = "websocket.receive")
    (hd : WebSocketEndpoint.decode jl e m = ([], .ok data))
    (hr : cb.on_receive data = .error f) :
    WebSocketEndpoint.loop jl e cb c0 (m :: rest) =
      ([.onReceive data], c0, .fault f) := by
  simp [WebSocketEndpoint.loop, h1, hd, hr]

/-- Receive loop, receive-message decoded to `data` whose `on_receive`
returns: the loop records the invocation and continues on the rest. -/
theorem WebSocketEndpoint.loop_recv_ok {J : Type}
    (jl : List Nat → Except WSFault J) (e : Option String) (cb : WSCallbacks J)
    (c0 : Option Nat) (m : WSMessage) (rest : List WSMessage) (data : WSData J)
    (h1 : m.type = "websocket.receive")
    (hd : WebSocketEndpoint.decode jl e m = ([], .ok data))
    (hr : cb.on_receive data = .ok ()) :
    WebSocketEndpoint.loop jl e cb c0 (m :: rest) =
      (WSEvent.onReceive data :: (WebSocketEndpoint.loop jl e cb c0 rest).1,
       (WebSocketEndpoint.loop jl e cb c0 rest).2) := by
  simp [WebSocketEndpoint.loop, h1, hd, hr]

/-- Receive loop, disconnect-message: capture the close code (1000 when the
message carries none) and return. -/
theorem WebSocketEndpoint.loop_disconnect {J : Type}
    (jl : List Nat → Except WSFault J) (e : Option String) (cb : WSCallbacks J)
    (c0 : Option Nat) (m : WSMessage) (rest : List WSMessage)
    (h2 : m.type = "websocket.disconnect") :
    WebSocketEndpoint.loop jl e cb c0 (m :: rest) =
      ([], some (m.code.getD 1000), .normal) := by
  simp [WebSocketEndpoint.loop, h2]

/-- Receive loop, message of any other type: ignored, the loop continues. -/
theorem WebSocketEndpoint.loop_other {J : Type}
    (jl : List Nat → Except WSFault J) (e : Option String) (cb : WSCallbacks J)
    (c0 : Option Nat) (m : WSMessage) (rest : List WSMessage)
    (h1 : m.type ≠ "websocket.receive") (h2 : m.type ≠ "websocket.disconnect") :
    WebSocketEndpoint.loop jl e cb c0 (m :: rest) =
      WebSocketEndpoint.loop jl e cb c0 rest := by
  simp [WebSocketEndpoint.loop, h1, h2]

/-- No event of the receive loop's trace is an `on_disconnect` invocation:
the loop itself never calls `on_disconnect`. -/
theorem WebSocketEndpoint.loop_no_onDisconnect {J : Type}
    (jl : List Nat → Except WSFault J) (e : Option String) (cb : WSCallbacks J) :
    ∀ (msgs : List WSMessage) (c0 : Option Nat) (ev : WSEvent J),
      ev ∈ (WebSocketEndpoint.loop jl e cb c0 msgs).1 →
        ev.isOnDisconnect = false
  | [], c0, ev => by simp [WebSocketEndpoint.loop_nil]
  | m :: rest, c0, ev => by
    intro hmem
    by_cases h1 : m.type = "websocket.receive"
    · rcases hd : WebSocketEndpoint.decode jl e m with ⟨evs, res⟩
      have hevs : ∀ x ∈ evs, WSEvent.isOnDisconnect x = false := by
        rcases WebSocketEndpoint.decode_events_or jl e m with h | ⟨h, _⟩ <;>
          rw [hd] at h <;> simp only at h <;> subst h <;>
            simp [WSEvent.isOnDisconnect]
      cases res with
      | error f =>
        rw [WebSocketEndpoint.loop_recv_decode_fault jl e cb c0 m rest evs f
          h1 hd] at hmem
        exact hevs ev hmem
      | ok data =>
        have hevs0 : evs = [] := by
          have := WebSocketEndpoint.decode_ok_no_events jl e m data
            (by rw [hd])
          rw [hd] at this
          exact congrArg Prod.fst this
        subst hevs0
        cases hr : cb.on_receive data with
        | error f =>
          rw [WebSocketEndpoint.loop_recv_cb_fault jl e cb c0 m rest data f
            h1 hd hr] at hmem
          simp at hmem
          simp [hmem, WSEvent.isOnDisconnect]
        | ok u =>
          cases u
          rw [WebSocketEndpoint.loop_recv_ok jl e cb c0 m rest data
            h1 hd hr] at hmem
          simp only [List.mem_cons] at hmem
          rcases hmem with hmem | hmem
          · simp [hmem, WSEvent.isOnDisconnect]
          · exact WebSocketEndpoint.loop_no_onDisconnect jl e cb rest c0 ev hmem
    · by_cases h2 : m.type = "websocket.disconnect"
      · rw [WebSocketEndpoint.loop_disconnect jl e cb c0 m rest h2] at hmem
        simp at hmem
      · rw [WebSocketEndpoint.loop_other jl e cb c0 m rest h1 h2] at hmem
        exact WebSocketEndpoint.loop_no_onDisconnect jl e cb rest c0 ev hmem

/-- The final `close_code` of the receive loop: unchanged (its initial
value) when the loop exits via a fault, and the code captured from a
disconnect message of the inbound sequence (1000 when the message carries
none) when the loop returns normally. -/
theorem WebSocketEndpoint.loop_closeCode {J : Type}
    (jl : List Nat → Except WSFault J) (e : Option String) (cb : WSCallbacks J) :
    ∀ (msgs : List WSMessage) (c0 : Option Nat),
      ((WebSocketEndpoint.loop jl e cb c0 msgs).2.2 = .normal →
        ∃ m ∈ msgs, m.type = "websocket.disconnect" ∧
          (WebSocketEndpoint.loop jl e cb c0 msgs).2.1 =
            some (m.code.getD 1000)) ∧
      (∀ f, (WebSocketEndpoint.loop jl e cb c0 msgs).2.2 = .fault f →
        (WebSocketEndpoint.loop jl e cb c0 msgs).2.1 = c0)
  | [], c0 => by simp [WebSocketEndpoint.loop_nil]
  | m :: rest, c0 => by
    by_cases h1 : m.type = "websocket.receive"
    · rcases hd : WebSocketEndpoint.decode jl e m with ⟨evs, res⟩
      cases res with
      | error f =>
        rw [WebSocketEndpoint.loop_recv_decode_fault jl e cb c0 m rest evs f
          h1 hd]
        simp
      | ok data =>
        have hevs0 : evs = [] := by
          have := WebSocketEndpoint.decode_ok_no_events jl e m data
            (by rw [hd])
          rw [hd] at this
          exact congrArg Prod.fst this
        subst hevs0
        cases hr : cb.on_receive data with
        | error f =>
          rw [WebSocketEndpoint.loop_recv_cb_fault jl e cb c0 m rest data f
            h1 hd hr]
          simp
        | ok u =>
          cases u
          rw [WebSocketEndpoint.loop_recv_ok jl e cb c0 m rest data h1 hd hr]
          have ih := WebSocketEndpoint.loop_closeCode jl e cb rest c0
          constructor
          · intro hnorm
            obtain ⟨m', hm', hty, hcode⟩ := ih.1 hnorm
            exact ⟨m', by simp [hm'], hty, hcode⟩
          · exact ih.2
    · by_cases h2 : m.type = "websocket.disconnect"
      · rw [WebSocketEndpoint.loop_disconnect jl e cb c0 m rest h2]
        constructor
        · intro _
          exact ⟨m, by simp, h2, rfl⟩
        · intro f hf
          cases hf
      · rw [WebSocketEndpoint.loop_other jl e cb c0 m rest h1 h2]
        have ih := WebSocketEndpoint.loop_closeCode jl e cb rest c0
        constructor
        · intro hnorm
          obtain ⟨m', hm', hty, hcode⟩ := ih.1 hnorm
          exact ⟨m', by simp [hm'], hty, hcode⟩
        · exact ih.2

/-- Once `on_connect` has returned, the session's trace is the connect
invocation, then the loop's trace, then exactly the one `on_disconnect`
invocation with the loop's final close code -- whatever way the loop
exited and whether or not `on_disconnect` itself raises. -/
theorem WebSocketEndpoint.call_trace {J : Type}
    (jl : List Nat → Except WSFault J) (e : Option String) (cb : WSCallbacks J)
    (inbound : List WSMessage) (h : cb.on_connect = .ok ()) :
    (WebSocketEndpoint.call jl e cb inbound).1 =
      .onConnect :: (WebSocketEndpoint.loop jl e cb none inbound).1 ++
        [.onDisconnect (WebSocketEndpoint.loop jl e cb none inbound).2.1] := by
  unfold WebSocketEndpoint.call
  rcases hl : WebSocketEndpoint.loop jl e cb none inbound with ⟨evs, c, ex⟩
  cases hce : cb.on_disconnect c <;> cases ex <;> simp [h, hl, hce]

/-! ## Theorems: the session state machine -/

/-- Claim C1: once the Open loop has been entered (i.e. `on_connect`
returned), `on_disconnect` is invoked exactly once, on every exit path of
the loop; it receives the loop's final close code, which is the code of a
disconnect message of the inbound sequence (1000 when the message carries
none) when the loop returned normally, and `none` when the loop exited via
a fault before a disconnect message was observed. -/
theorem WebSocketEndpoint.on_disconnect_exactly_once {J : Type}
    (jl : List Nat → Except WSFault J) (e : Option String) (cb : WSCallbacks J)
    (inbound : List WSMessage) (h : cb.on_connect = .ok ()) :
    (WebSocketEndpoint.call jl e cb inbound).1.countP
        (fun ev => ev.isOnDisconnect) = 1 ∧
    WSEvent.onDisconnect (WebSocketEndpoint.loop jl e cb none inbound).2.1 ∈
      (WebSocketEndpoint.call jl e cb inbound).1 ∧
    ((WebSocketEndpoint.loop jl e cb none inbound).2.2 = .normal →
      ∃ m ∈ inbound, m.type = "websocket.disconnect" ∧
        (WebSocketEndpoint.loop jl e cb none inbound).2.1 =
          some (m.code.getD 1000)) ∧
    (∀ f, (WebSocketEndpoint.loop jl e cb none inbound).2.2 = .fault f →
      (WebSocketEndpoint.loop jl e cb none inbound).2.1 = none) := by
  have htr := WebSocketEndpoint.call_trace jl e cb inbound h
  have hcc := WebSocketEndpoint.loop_closeCode jl e cb inbound none
  refine ⟨?_, ?_, hcc.1, hcc.2⟩
  · rw [htr]
    have h0 : (WebSocketEndpoint.loop jl e cb none inbound).1.countP
        (fun ev => ev.isOnDisconnect) = 0 :=
      List.countP_eq_zero.mpr (fun a ha => by
        simp only [WebSocketEndpoint.loop_no_onDisconnect jl e cb inbound
          none a ha, Bool.false_eq_true, not_false_eq_true])
    simp only [List.countP_cons, List.countP_append, List.countP_nil]
    rw [h0]
    simp [WSEvent.isOnDisconnect]
  · rw [htr]
    simp

/-- Witness: `WebSocketEndpoint.on_disconnect_exactly_once` at a concrete session:
the default callbacks driven over the single inbound message
`disconnect()` (no explicit code) invoke `on_disconnect` exactly once. -/
theorem WebSocketEndpoint.on_disconnect_exactly_once_witness :
    (WebSocketEndpoint.call noJson none (WSCallbacks.default Unit)
        [{ type := "websocket.disconnect" }]).1.countP
        (fun ev => ev.isOnDisconnect) = 1 :=
  (WebSocketEndpoint.on_disconnect_exactly_once noJson none
    (WSCallbacks.default Unit) [{ type := "websocket.disconnect" }] rfl).1

/-- Claim C2: over the inbound sequence `[receive(A), receive(B),
disconnect(code=1001)]` with an encoding that decodes both payloads,
`on_receive` runs exactly twice, in arrival order, with decoded `A` then
decoded `B`, and `on_disconnect` runs exactly once with close code 1001,
after both receives; the session completes normally. -/
theorem WebSocketEndpoint.session_two_receives {J : Type}
    (jl : List Nat → Except WSFault J) (e : Option String) (cb : WSCallbacks J)
    (mA mB : WSMessage) (dA dB : WSData J)
    (hA : mA.type = "websocket.receive") (hB : mB.type = "websocket.receive")
    (hdA : (WebSocketEndpoint.decode jl e mA).2 = .ok dA)
    (hdB : (WebSocketEndpoint.decode jl e mB).2 = .ok dB)
    (hc : cb.on_connect = .ok ())
    (hrA : cb.on_receive dA = .ok ())
    (hrB : cb.on_receive dB = .ok ())
    (hdisc : cb.on_disconnect (some 1001) = .ok ()) :
    WebSocketEndpoint.call jl e cb
        [mA, mB, { type := "websocket.disconnect", code := some 1001 }] =
      ([.onConnect, .onReceive dA, .onReceive dB, .onDisconnect (some 1001)],
       .completed) := by
  have hdA' := WebSocketEndpoint.decode_ok_no_events jl e mA dA hdA
  have hdB' := WebSocketEndpoint.decode_ok_no_events jl e mB dB hdB
  have h3 : WebSocketEndpoint.loop jl e cb none
      [{ type := "websocket.disconnect", code := some 1001 }] =
      ([], some 1001, .normal) := by
    rw [WebSocketEndpoint.loop_disconnect jl e cb none _ [] rfl]
    rfl
  have h2 : WebSocketEndpoint.loop jl e cb none
      [mB, { type := "websocket.disconnect", code := some 1001 }] =
      ([.onReceive dB], some 1001, .normal) := by
    rw [WebSocketEndpoint.loop_recv_ok jl e cb none mB _ dB hB hdB' hrB, h3]
  have h1 : WebSocketEndpoint.loop jl e cb none
      [mA, mB, { type := "websocket.disconnect", code := some 1001 }] =
      ([.onReceive dA, .onReceive dB], some 1001, .normal) := by
    rw [WebSocketEndpoint.loop_recv_ok jl e cb none mA _ dA hA hdA' hrA, h2]
  unfold WebSocketEndpoint.call
  simp [hc, h1, hdisc]

/-- Witness: `WebSocketEndpoint.session_two_receives` at a concrete session: encoding
`"text"`, payloads `"A"` and `"B"`, default callbacks. -/
theorem WebSocketEndpoint.session_two_receives_witness :
    WebSocketEndpoint.call noJson (some "text") (WSCallbacks.default Unit)
        [{ type := "websocket.receive", text := some "A" },
         { type := "websocket.receive", text := some "B" },
         { type := "websocket.disconnect", code := some 1001 }] =
      ([.onConnect, .onReceive (.text "A"), .onReceive (.text "B"),
        .onDisconnect (some 1001)], .completed) :=
  WebSocketEndpoint.session_two_receives noJson (some "text")
    (WSCallbacks.default Unit)
    { type := "websocket.receive", text := some "A" }
    { type := "websocket.receive", text := some "B" }
    (.text "A") (.text "B") rfl rfl rfl rfl rfl rfl rfl rfl

/-- A receive-message whose payload kind does not match the configured
encoding makes `decode` close the session with code 1003 and raise a
`RuntimeError`. -/
theorem WebSocketEndpoint.decode_mismatch {J : Type}
    (jl : List Nat → Except WSFault J) (e : Option String) (m : WSMessage)
    (hmis : (e = some "text" ∧ m.text = none) ∨
            ((e = some "bytes" ∨ e = some "json") ∧ m.bytes = none)) :
    ∃ s, WebSocketEndpoint.decode jl e m =
      ([.close 1003], .error (.runtimeError s)) := by
  rcases hmis with ⟨he, hm⟩ | ⟨he | he, hm⟩
  · exact ⟨"Expected text websocket messages, but got bytes",
      by subst he; simp [WebSocketEndpoint.decode, hm]⟩
  · exact ⟨"Expected bytes websocket messages, but got text",
      by subst he; simp [WebSocketEndpoint.decode, hm]⟩
  · exact ⟨"Expected JSON to be transferred as bytes websocket messages, but got text",
      by subst he; simp [WebSocketEndpoint.decode, hm]⟩

/-- Claim C3: on an inbound receive-message whose payload kind does not
match the configured encoding (encoding `"text"` with a binary-only payload,
encoding `"bytes"` or `"json"` with a text-only payload), the dispatcher
closes the session with code 1003, never invokes `on_receive` for that
message, and raises a fault that aborts the loop -- from any loop state --
and propagates to the caller after `on_disconnect` has run. -/
theorem WebSocketEndpoint.decode_mismatch_aborts {J : Type}
    (jl : List Nat → Except WSFault J) (e : Option String) (cb : WSCallbacks J)
    (m : WSMessage) (rest : List WSMessage)
    (hm : m.type = "websocket.receive")
    (hmis : (e = some "text" ∧ m.text = none) ∨
            ((e = some "bytes" ∨ e = some "json") ∧ m.bytes = none))
    (hc : cb.on_connect = .ok ()) (hd : cb.on_disconnect none = .ok ()) :
    ∃ s,
      (∀ c0, WebSocketEndpoint.loop jl e cb c0 (m :: rest) =
        ([.close 1003], c0, .fault (.runtimeError s))) ∧
      WebSocketEndpoint.call jl e cb (m :: rest) =
        ([.onConnect, .close 1003, .onDisconnect none],
         .fault (.runtimeError s)) := by
  obtain ⟨s, hdec⟩ := WebSocketEndpoint.decode_mismatch jl e m hmis
  have hloop : ∀ c0, WebSocketEndpoint.loop jl e cb c0 (m :: rest) =
      ([.close 1003], c0, .fault (.runtimeError s)) := fun c0 =>
    WebSocketEndpoint.loop_recv_decode_fault jl e cb c0 m rest
      [.close 1003] (.runtimeError s) hm hdec
  refine ⟨s, hloop, ?_⟩
  unfold WebSocketEndpoint.call
  simp [hc, hloop none, hd]

/-- Witness: `WebSocketEndpoint.decode_mismatch_aborts` at a concrete session:
encoding `"text"`, a binary-only receive message, default callbacks. -/
theorem WebSocketEndpoint.decode_mismatch_aborts_witness :
    ∃ s,
      (∀ c0, WebSocketEndpoint.loop noJson (some "text")
          (WSCallbacks.default Unit) c0
          [{ type := "websocket.receive", bytes := some [104, 105] }] =
        ([.close 1003], c0, .fault (.runtimeError s))) ∧
      WebSocketEndpoint.call noJson (some "text") (WSCallbacks.default Unit)
          [{ type := "websocket.receive", bytes := some [104, 105] }] =
        ([.onConnect, .close 1003, .onDisconnect none],
         .fault (.runtimeError s)) :=
  WebSocketEndpoint.decode_mismatch_aborts noJson (some "text")
    (WSCallbacks.default Unit)
    { type := "websocket.receive", bytes := some [104, 105] } []
    rfl (Or.inl ⟨rfl, rfl⟩) rfl rfl
